import Mathlib

/-!
# Verification of `multiexp_profile.cpp`

A shallow embedding of the multi-exponentiation profiling harness
(`src/algebra/scalar_multiplication/multiexp_profile.cpp`).

* `std::vector<T>` is a `List T`; `test_instances_t<T>` is a `List (List T)`.
* `size_t` is a natural number reduced modulo `2 ^ 64`, `int` is an integer
  wrapped into `[-2^31, 2^31)`, `long long` is an integer wrapped into
  `[-2^63, 2^63)`.
* The collaborators that live outside this file of the repository
  (`GroupT::random_element`, `SHA512_rng`, `multi_exp`, `get_nsec_time`,
  `GroupT::operator==`) are fields of an environment `Env`.
* The observable state (generator state, number of clock readings, the two
  output streams and a trace of the calls to the clock and to the engine) is a
  `World`, threaded explicitly through the stateful functions.
-/

namespace MultiexpProfile

/-! ## Machine integers -/

/-- Reduction of a natural number to `size_t`. -/
def to_size_t (n : Nat) : Nat := n % 2 ^ 64

/-- Multiplication of two `size_t` values. -/
def size_t_mul (a b : Nat) : Nat := to_size_t (a * b)

/-- Addition of two `size_t` values. -/
def size_t_add (a b : Nat) : Nat := to_size_t (a + b)

/-- Conversion of a signed integer to `size_t` (value modulo `2 ^ 64`). -/
def int_to_size_t (z : Int) : Nat := (z % 2 ^ 64).toNat

/-- Wrapping of an integer into the range of a 32-bit `int`. -/
def wrap_int (z : Int) : Int := (z + 2 ^ 31) % 2 ^ 32 - 2 ^ 31

/-- Wrapping of an integer into the range of a 64-bit `long long`. -/
def wrap_ll (z : Int) : Int := (z + 2 ^ 63) % 2 ^ 64 - 2 ^ 63

/-- The expression `1 << expn` of `print_performance_csv`: the left operand is the
`int` constant `1`, so the result has type `int`.  For `expn < 31` it is
`2 ^ expn`; for `expn = 31` the value `2 ^ 31` does not fit in `int` and wraps to
`-2 ^ 31`; for `expn >= 32` the language leaves the shift undefined, and the value
the platform produces there is the parameter `shl_undefined`. -/
def one_shl (shl_undefined : Nat → Int) (expn : Nat) : Int :=
  if expn < 32 then wrap_int (2 ^ expn) else wrap_int (shl_undefined expn)

/-- The shift of a 32-bit register on x86-64: the count is taken modulo 32. -/
def shl_x86 (expn : Nat) : Int := 2 ^ (expn % 32)

/-! ## Environment and world -/

/-- The external collaborators of the harness. -/
structure Env (G F σ : Type) where
  /-- `GroupT::random_element()`: one sample and the next generator state. -/
  random_element : σ → G × σ
  /-- `SHA512_rng<FieldT>(idx)`, a function of the 64-bit index. -/
  SHA512_rng : Nat → F
  /-- `multi_exp<GroupT, FieldT>(g.cbegin(), g.cend(), s.cbegin(), s.cend(), chunks,
  use_multiexp)`. -/
  multi_exp : List G → List F → Nat → Bool → G
  /-- `get_nsec_time()`: the value of the `k`-th reading of the clock. -/
  get_nsec_time : Nat → Int
  /-- `GroupT::operator==`. -/
  eq : G → G → Bool
  /-- The value of `1 << expn` where the language leaves it undefined. -/
  shl_undefined : Nat → Int

/-- Calls to the collaborators whose order is observed. -/
inductive Event where
  /-- A reading of the clock. -/
  | clock : Event
  /-- A call of the engine: the mode and the lengths of the group-element sequence and
  of the scalar sequence handed to it. -/
  | engine : Bool → Nat → Nat → Event
  deriving DecidableEq, Repr

/-- The observable state of a run. -/
structure World (σ : Type) where
  /-- State of the generator behind `GroupT::random_element`. -/
  rng : σ
  /-- Number of readings of the clock so far. -/
  clock_reads : Nat
  /-- Characters written to standard output. -/
  out : List Char
  /-- Characters written to the diagnostic stream. -/
  err : List Char
  /-- Calls to the clock and to the engine, oldest first. -/
  trace : List Event

/-! ## `generate_group_elements` -/

/-- The inner loop `for (j = 0; j < size; j++) result[i].push_back(x)`; the first
argument is the number of iterations left. -/
def push_back_repeat {G : Type} (x : G) : Nat → List G → List G
  | 0, row => row
  | n + 1, row => push_back_repeat x n (row ++ [x])

/-- The outer loop of `generate_group_elements`; `left` is `count - i`. -/
def generate_group_elements_loop {G σ : Type} (random_element : σ → G × σ) (size : Nat) :
    Nat → Nat → List (List G) → σ → List (List G) × σ
  | 0, _, result, rng => (result, rng)
  | left + 1, i, result, rng =>
    let x := (random_element rng).1
    let rng1 := (random_element rng).2
    generate_group_elements_loop random_element size left (i + 1)
      (result.set i (push_back_repeat x size (result.getD i []))) rng1

/-- The function `generate_group_elements<GroupT>(count, size)`. -/
def generate_group_elements {G σ : Type} (random_element : σ → G × σ) (count size : Nat)
    (rng : σ) : List (List G) × σ :=
  generate_group_elements_loop random_element size count 0 (List.replicate count []) rng

/-- State of the generator after `n` calls of the sampler. -/
def rng_after {G σ : Type} (random_element : σ → G × σ) : Nat → σ → σ
  | 0, rng => rng
  | n + 1, rng => rng_after random_element n (random_element rng).2

/-- The element returned by call number `n` (from zero) of the sampler. -/
def nth_sample {G σ : Type} (random_element : σ → G × σ) (n : Nat) (rng : σ) : G :=
  (random_element (rng_after random_element n rng)).1

/-! ## `generate_scalars` -/

/-- The index `i * size + j` as computed in `size_t`. -/
def scalar_index (i size j : Nat) : Nat := size_t_add (size_t_mul i size) j

/-- The inner loop of `generate_scalars`; `left` is `size - j`. -/
def generate_scalars_inner {F : Type} (SHA512_rng : Nat → F) (i size : Nat) :
    Nat → Nat → List F → List F
  | 0, _, row => row
  | left + 1, j, row =>
    generate_scalars_inner SHA512_rng i size left (j + 1)
      (row ++ [SHA512_rng (scalar_index i size j)])

/-- The outer loop of `generate_scalars`; `left` is `count - i`. -/
def generate_scalars_loop {F : Type} (SHA512_rng : Nat → F) (size : Nat) :
    Nat → Nat → List (List F) → List (List F)
  | 0, _, result => result
  | left + 1, i, result =>
    generate_scalars_loop SHA512_rng size left (i + 1)
      (result.set i (generate_scalars_inner SHA512_rng i size size 0 (result.getD i [])))

/-- The function `generate_scalars<FieldT>(count, size)`. -/
def generate_scalars {F : Type} (SHA512_rng : Nat → F) (count size : Nat) : List (List F) :=
  generate_scalars_loop SHA512_rng size count 0 (List.replicate count [])

/-! ## `profile_multiexp` -/

/-- The loop of `profile_multiexp`; `left` is `group_elements.size() - i`.  The
accesses `group_elements[i]` and `scalars[i]` are unchecked: reading past the end of
a vector is undefined, and the model has no result there (`none`). -/
def profile_multiexp_loop {G F σ : Type} (env : Env G F σ) (group_elements : List (List G))
    (scalars : List (List F)) (use_multiexp : Bool) :
    Nat → Nat → List G → List Event → Option (List G × List Event)
  | 0, _, answers, trace => some (answers, trace)
  | left + 1, i, answers, trace =>
    match group_elements.get? i, scalars.get? i with
    | some g, some s =>
      profile_multiexp_loop env group_elements scalars use_multiexp left (i + 1)
        (answers ++ [env.multi_exp g s 1 use_multiexp])
        (trace ++ [Event.engine use_multiexp g.length s.length])
    | _, _ => none

/-- The function `profile_multiexp<GroupT, FieldT>(group_elements, scalars, use_multiexp)`.
The result is the pair `run_result_t` (elapsed time, answers) and the new world. -/
def profile_multiexp {G F σ : Type} (env : Env G F σ) (group_elements : List (List G))
    (scalars : List (List F)) (use_multiexp : Bool) (w : World σ) :
    Option ((Int × List G) × World σ) :=
  let start_time := env.get_nsec_time w.clock_reads
  match profile_multiexp_loop env group_elements scalars use_multiexp group_elements.length 0 []
      (w.trace ++ [Event.clock]) with
  | none => none
  | some (answers, trace) =>
    let time_delta := wrap_ll (env.get_nsec_time (w.clock_reads + 1) - start_time)
    some ((time_delta, answers),
      { w with clock_reads := w.clock_reads + 2, trace := trace ++ [Event.clock] })

/-! ## Output -/

/-- Decimal rendering of a signed integer, as `printf` does for `%ld` and `%lld`. -/
def fmt_signed (z : Int) : List Char :=
  if z < 0 then '-' :: Nat.toDigits 10 z.natAbs else Nat.toDigits 10 z.natAbs

/-- The call `printf("%ld", expn)`: the `size_t` argument is read as a `long`. -/
def fmt_ld (expn : Nat) : List Char := fmt_signed (wrap_ll (expn : Int))

/-- The call `printf("\t%lld", t)`. -/
def fmt_tab_lld (t : Int) : List Char := '\t' :: fmt_signed (wrap_ll t)

/-- The diagnostic of `print_performance_csv`. -/
def NOT_MATCHING : List Char := "Answers NOT MATCHING\n".toList

/-- Writing to standard output. -/
def printf {σ : Type} (w : World σ) (s : List Char) : World σ := { w with out := w.out ++ s }

/-- Writing to the diagnostic stream. -/
def fprintf_stderr {σ : Type} (w : World σ) (s : List Char) : World σ :=
  { w with err := w.err ++ s }

/-- Equality of two `std::vector<GroupT>`: same size and equal elements. -/
def vector_eq {G : Type} (eq : G → G → Bool) : List G → List G → Bool
  | [], [] => true
  | a :: as, b :: bs => eq a b && vector_eq eq as bs
  | _, _ => false

/-! ## `print_performance_csv` -/

/-- The size argument `1 << expn` converted to `size_t`. -/
def instance_size {G F σ : Type} (env : Env G F σ) (expn : Nat) : Nat :=
  int_to_size_t (one_shl env.shl_undefined expn)

/-- The body of the loop of `print_performance_csv` for one value of `expn`. -/
def print_performance_csv_body {G F σ : Type} (env : Env G F σ) (expn_end_naive : Nat)
    (compare_answers : Bool) (expn : Nat) (w : World σ) : Option (World σ) :=
  let w1 := printf w (fmt_ld expn)
  let gen := generate_group_elements env.random_element 10 (instance_size env expn) w1.rng
  let group_elements := gen.1
  let w2 := { w1 with rng := gen.2 }
  let scalars := generate_scalars env.SHA512_rng 10 (instance_size env expn)
  match profile_multiexp env group_elements scalars true w2 with
  | none => none
  | some (result_fast, w3) =>
    let w4 := printf w3 (fmt_tab_lld result_fast.1)
    if expn ≤ expn_end_naive then
      match profile_multiexp env group_elements scalars false w4 with
      | none => none
      | some (result_naive, w5) =>
        let w6 := printf w5 (fmt_tab_lld result_naive.1)
        let w7 :=
          if compare_answers && !(vector_eq env.eq result_fast.2 result_naive.2) then
            fprintf_stderr w6 NOT_MATCHING
          else w6
        some (printf w7 ['\n'])
    else
      some (printf w4 ['\n'])

/-- How a run bounded by a number of loop tests ends. -/
inductive Outcome (α : Type) where
  /-- The loop was left and the function returned. -/
  | returned : α → Outcome α
  /-- The run was aborted by an access out of bounds. -/
  | aborted : Outcome α
  /-- The loop is still running after the given number of tests, in the given state. -/
  | running : α → Outcome α
  deriving DecidableEq

/-- The loop `for (size_t expn = expn_start; expn <= expn_end_fast; expn++)`; the
first argument bounds the number of tests of the loop condition, and `expn++` is an
increment of a `size_t`. -/
def print_performance_csv_loop {G F σ : Type} (env : Env G F σ)
    (expn_end_fast expn_end_naive : Nat) (compare_answers : Bool) :
    Nat → Nat → World σ → Outcome (World σ)
  | 0, _, w => Outcome.running w
  | fuel + 1, expn, w =>
    if expn ≤ expn_end_fast then
      match print_performance_csv_body env expn_end_naive compare_answers expn w with
      | none => Outcome.aborted
      | some w1 =>
        print_performance_csv_loop env expn_end_fast expn_end_naive compare_answers fuel
          (size_t_add expn 1) w1
    else Outcome.returned w

/-- The function `print_performance_csv<GroupT, FieldT>(expn_start, expn_end_fast,
expn_end_naive, compare_answers)`, run for at most `fuel` tests of the loop
condition. -/
def print_performance_csv {G F σ : Type} (env : Env G F σ) (fuel : Nat)
    (expn_start expn_end_fast expn_end_naive : Nat) (compare_answers : Bool) (w : World σ) :
    Outcome (World σ) :=
  print_performance_csv_loop env expn_end_fast expn_end_naive compare_answers fuel expn_start w

/-! ## What one iteration of the sweep computes

The following definitions name the values that one iteration of the loop of
`print_performance_csv` computes, so that theorems can refer to them. -/

/-- The standard output written so far in an outcome. -/
def Outcome.table {σ : Type} : Outcome (World σ) → Outcome (List Char)
  | Outcome.returned w => Outcome.returned w.out
  | Outcome.aborted => Outcome.aborted
  | Outcome.running w => Outcome.running w.out

/-- The diagnostic stream written so far in an outcome. -/
def Outcome.diagnostics {σ : Type} : Outcome (World σ) → Outcome (List Char)
  | Outcome.returned w => Outcome.returned w.err
  | Outcome.aborted => Outcome.aborted
  | Outcome.running w => Outcome.running w.err

/-! ## A concrete environment -/

/-- Sum of the products `scalars[i] * group_elements[i]` over the integers. -/
def int_multi_exp : List Int → List Int → Int
  | g :: gs, s :: ss => s * g + int_multi_exp gs ss
  | _, _ => 0

/-- A concrete environment over the integers: the sampler counts up from its state,
the scalar derivation is affine in the index, the engine computes the weighted sum in
both modes and the clock advances by 100 ns per reading. -/
def int_env : Env Int Int Nat where
  random_element := fun s => ((s : Int) + 5, s + 1)
  SHA512_rng := fun idx => 3 * (idx : Int) + 1
  multi_exp := fun g s _ _ => int_multi_exp g s
  get_nsec_time := fun k => 100 * (k : Int)
  eq := fun a b => decide (a = b)
  shl_undefined := shl_x86

/-- The environment `int_env` with an optimized mode that is off by one. -/
def faulty_env : Env Int Int Nat :=
  { int_env with multi_exp := fun g s _ use_multiexp =>
      if use_multiexp then int_multi_exp g s + 1 else int_multi_exp g s }

/-- The world at the start of a run. -/
def initial_world : World Nat :=
  { rng := 0, clock_reads := 0, out := [], err := [], trace := [] }

/-! ## Lemmas on the generators -/

theorem push_back_repeat_eq {G : Type} (x : G) (n : Nat) (row : List G) :
    push_back_repeat x n row = row ++ List.replicate n x := by
  induction n generalizing row with
  | zero => simp [push_back_repeat]
  | succ n ih =>
    rw [push_back_repeat, ih, List.replicate_succ]
    simp

theorem set_append_replicate_nil {α : Type} (done : List (List α)) (left : Nat) (row : List α) :
    (done ++ List.replicate (left + 1) []).set done.length row
      = (done ++ [row]) ++ List.replicate left [] := by
  induction done with
  | nil => simp [List.replicate_succ]
  | cons d ds ih => simpa using ih

theorem getD_append_replicate_nil {α : Type} (done : List (List α)) (left : Nat) :
    (done ++ List.replicate (left + 1) ([] : List α)).getD done.length [] = [] := by
  induction done with
  | nil => simp [List.replicate_succ]
  | cons d ds ih => simpa using ih

theorem generate_group_elements_loop_eq {G σ : Type} (random_element : σ → G × σ)
    (size left : Nat) (done : List (List G)) (rng : σ) :
    generate_group_elements_loop random_element size left done.length
        (done ++ List.replicate left []) rng
      = (done ++ (List.range left).map
            (fun m => List.replicate size (nth_sample random_element m rng)),
          rng_after random_element left rng) := by
  induction left generalizing done rng with
  | zero => simp [generate_group_elements_loop, rng_after]
  | succ left ih =>
    rw [generate_group_elements_loop, set_append_replicate_nil, getD_append_replicate_nil]
    have h := ih (done ++ [push_back_repeat (random_element rng).1 size []])
      (random_element rng).2
    rw [List.length_append, List.length_singleton] at h
    rw [h, List.range_succ_eq_map, List.map_cons, List.map_map, push_back_repeat_eq]
    simp [nth_sample, rng_after, Function.comp_def]

theorem generate_group_elements_eq {G σ : Type} (random_element : σ → G × σ)
    (count size : Nat) (rng : σ) :
    generate_group_elements random_element count size rng
      = ((List.range count).map
            (fun m => List.replicate size (nth_sample random_element m rng)),
          rng_after random_element count rng) := by
  have h := generate_group_elements_loop_eq random_element size count [] rng
  simpa [generate_group_elements] using h

theorem generate_scalars_inner_eq {F : Type} (SHA512_rng : Nat → F) (i size left j : Nat)
    (row : List F) :
    generate_scalars_inner SHA512_rng i size left j row
      = row ++ (List.range left).map (fun m => SHA512_rng (scalar_index i size (j + m))) := by
  induction left generalizing j row with
  | zero => simp [generate_scalars_inner]
  | succ left ih =>
    rw [generate_scalars_inner, ih, List.range_succ_eq_map, List.map_cons, List.map_map]
    simp [Function.comp_def, Nat.add_assoc, Nat.add_comm 1]

theorem generate_scalars_loop_eq {F : Type} (SHA512_rng : Nat → F) (size left : Nat)
    (done : List (List F)) :
    generate_scalars_loop SHA512_rng size left done.length (done ++ List.replicate left [])
      = done ++ (List.range left).map (fun m =>
          (List.range size).map (fun j => SHA512_rng (scalar_index (done.length + m) size j))) := by
  induction left generalizing done with
  | zero => simp [generate_scalars_loop]
  | succ left ih =>
    rw [generate_scalars_loop, set_append_replicate_nil, getD_append_replicate_nil]
    have h := ih (done ++ [generate_scalars_inner SHA512_rng done.length size size 0 []])
    rw [List.length_append, List.length_singleton] at h
    rw [h, List.range_succ_eq_map, List.map_cons, List.map_map, generate_scalars_inner_eq]
    simp [Function.comp_def, Nat.add_assoc, Nat.add_comm 1]

theorem generate_scalars_eq {F : Type} (SHA512_rng : Nat → F) (count size : Nat) :
    generate_scalars SHA512_rng count size
      = (List.range count).map (fun i =>
          (List.range size).map (fun j => SHA512_rng (scalar_index i size j))) := by
  have h := generate_scalars_loop_eq SHA512_rng size count []
  simpa [generate_scalars] using h

theorem scalar_index_eq (i size j : Nat) : scalar_index i size j = (i * size + j) % 2 ^ 64 := by
  simp [scalar_index, size_t_add, size_t_mul, to_size_t, Nat.add_mod]

/-- C1: `generate_group_elements(count, size)` returns exactly `count` sequences;
sequence `i` is the element returned by the `i`-th call of the sampler repeated `size`
times, so every sequence has length `size` and all its elements are equal; the sampler
is called exactly `count` times. -/
theorem generate_group_elements_repeats {G σ : Type} (random_element : σ → G × σ)
    (count size : Nat) (rng : σ) :
    (generate_group_elements random_element count size rng).1.length = count ∧
    (∀ i, i < count →
      (generate_group_elements random_element count size rng).1.get? i
        = some (List.replicate size (nth_sample random_element i rng))) ∧
    (∀ row ∈ (generate_group_elements random_element count size rng).1,
      row.length = size ∧ ∀ a ∈ row, ∀ b ∈ row, a = b) ∧
    (generate_group_elements random_element count size rng).2
      = rng_after random_element count rng := by
  rw [generate_group_elements_eq]
  refine ⟨by simp, ?_, ?_, rfl⟩
  · intro i hi
    simp [List.get?_eq_getElem?, hi]
  · intro row hrow
    simp only [List.mem_map, List.mem_range] at hrow
    obtain ⟨m, _, rfl⟩ := hrow
    refine ⟨by simp, ?_⟩
    intro a ha b hb
    rw [List.eq_of_mem_replicate ha, List.eq_of_mem_replicate hb]

/-- Instance of C1: three sequences of two elements; the last one repeats the third
sample. -/
theorem generate_group_elements_repeats_witness :
    2 < 3 ∧ (generate_group_elements int_env.random_element 3 2 0).1.get? 2
      = some (List.replicate 2 (nth_sample int_env.random_element 2 0)) :=
  ⟨by decide, (generate_group_elements_repeats int_env.random_element 3 2 0).2.1 2 (by decide)⟩

/-- C2: `generate_scalars(count, size)` returns exactly `count` sequences of length
`size`; the element at batch `i`, position `j` is `SHA512_rng` applied to the index
`i * size + j` computed in `size_t`; the result depends on the derivation function
only through its values on 64-bit indices, so equal derivation functions give equal
results. -/
theorem generate_scalars_deterministic {F : Type} (SHA512_rng : Nat → F) (count size : Nat) :
    (generate_scalars SHA512_rng count size).length = count ∧
    (∀ i, i < count → ∃ row, (generate_scalars SHA512_rng count size).get? i = some row ∧
      row.length = size ∧
      ∀ j, j < size → row.get? j = some (SHA512_rng (scalar_index i size j))) ∧
    (∀ i j, scalar_index i size j = (i * size + j) % 2 ^ 64) ∧
    (∀ other : Nat → F, (∀ idx, idx < 2 ^ 64 → other idx = SHA512_rng idx) →
      generate_scalars other count size = generate_scalars SHA512_rng count size) := by
  refine ⟨by simp [generate_scalars_eq], ?_, fun i j => scalar_index_eq i size j, ?_⟩
  · intro i hi
    refine ⟨(List.range size).map (fun j => SHA512_rng (scalar_index i size j)), ?_, by simp, ?_⟩
    · simp [generate_scalars_eq, List.get?_eq_getElem?, hi]
    · intro j hj
      simp [List.get?_eq_getElem?, hj]
  · intro other hother
    rw [generate_scalars_eq, generate_scalars_eq]
    apply List.map_congr_left
    intro i _
    apply List.map_congr_left
    intro j _
    apply hother
    rw [scalar_index_eq]
    exact Nat.mod_lt _ (by norm_num)

/-- Instance of C2: in a batch of sequences of length 4, position 3 of sequence 2
is derived from index 11. -/
theorem generate_scalars_deterministic_witness :
    2 < 3 ∧ 3 < 4 ∧ ∃ row, (generate_scalars int_env.SHA512_rng 3 4).get? 2 = some row ∧
      row.length = 4 ∧ row.get? 3 = some (int_env.SHA512_rng 11) := by
  obtain ⟨row, h1, h2, h3⟩ :=
    (generate_scalars_deterministic int_env.SHA512_rng 3 4).2.1 2 (by decide)
  exact ⟨by decide, by decide, row, h1, h2, (h3 3 (by decide)).trans (by decide)⟩

theorem profile_multiexp_loop_eq {G F σ : Type} (env : Env G F σ) (group_elements : List (List G))
    (scalars : List (List F)) (use_multiexp : Bool) (hlen : group_elements.length ≤ scalars.length)
    (left i : Nat) (hi : i + left = group_elements.length) (answers : List G)
    (trace : List Event) :
    profile_multiexp_loop env group_elements scalars use_multiexp left i answers trace
      = some (answers ++ List.zipWith (fun g s => env.multi_exp g s 1 use_multiexp)
                (group_elements.drop i) (scalars.drop i),
              trace ++ List.zipWith (fun g s => Event.engine use_multiexp g.length s.length)
                (group_elements.drop i) (scalars.drop i)) := by
  induction left generalizing i answers trace with
  | zero =>
    have h : group_elements.drop i = [] := List.drop_eq_nil_of_le (by omega)
    simp [profile_multiexp_loop, h]
  | succ left ih =>
    have hg : i < group_elements.length := by omega
    have hs : i < scalars.length := by omega
    rw [profile_multiexp_loop, List.get?_eq_getElem?, List.get?_eq_getElem?,
      List.getElem?_eq_getElem hg, List.getElem?_eq_getElem hs]
    simp only []
    rw [ih (i + 1) (by omega), List.drop_eq_getElem_cons hg, List.drop_eq_getElem_cons hs,
      List.zipWith_cons_cons, List.zipWith_cons_cons]
    simp

theorem profile_multiexp_eq {G F σ : Type} (env : Env G F σ) (group_elements : List (List G))
    (scalars : List (List F)) (use_multiexp : Bool) (w : World σ)
    (hlen : group_elements.length ≤ scalars.length) :
    profile_multiexp env group_elements scalars use_multiexp w
      = some ((wrap_ll (env.get_nsec_time (w.clock_reads + 1) - env.get_nsec_time w.clock_reads),
                List.zipWith (fun g s => env.multi_exp g s 1 use_multiexp) group_elements scalars),
              { w with
                clock_reads := w.clock_reads + 2
                trace := w.trace ++ Event.clock ::
                  (List.zipWith (fun g s => Event.engine use_multiexp g.length s.length)
                    group_elements scalars ++ [Event.clock]) }) := by
  unfold profile_multiexp
  rw [profile_multiexp_loop_eq env group_elements scalars use_multiexp hlen
    group_elements.length 0 (by simp)]
  simp

theorem zipWith_get?_of_lt {α β γ : Type} (f : α → β → γ) (l1 : List α) (l2 : List β)
    (hlen : l1.length ≤ l2.length) (k : Nat) (hk : k < l1.length) :
    ∃ a b, l1.get? k = some a ∧ l2.get? k = some b ∧
      (List.zipWith f l1 l2).get? k = some (f a b) := by
  have hk2 : k < l2.length := by omega
  refine ⟨l1[k], l2[k], ?_, ?_, ?_⟩
  · rw [List.get?_eq_getElem?, List.getElem?_eq_getElem hk]
  · rw [List.get?_eq_getElem?, List.getElem?_eq_getElem hk2]
  · rw [List.get?_eq_getElem?, List.getElem?_zipWith, List.getElem?_eq_getElem hk,
      List.getElem?_eq_getElem hk2]

/-- C4: for a batch of `n` group-element sequences with a matching batch of `n` scalar
sequences and every mode, `profile_multiexp` returns a result sequence of length `n`
whose `k`-th entry is the engine's result on `group_elements[k]` and `scalars[k]` in
that mode. -/
theorem profile_multiexp_preserves_order {G F σ : Type} (env : Env G F σ)
    (group_elements : List (List G)) (scalars : List (List F)) (use_multiexp : Bool)
    (w : World σ) (hlen : group_elements.length = scalars.length) :
    ∃ result w1, profile_multiexp env group_elements scalars use_multiexp w = some (result, w1) ∧
      result.2.length = group_elements.length ∧
      ∀ k, k < group_elements.length → ∃ g s, group_elements.get? k = some g ∧
        scalars.get? k = some s ∧
        result.2.get? k = some (env.multi_exp g s 1 use_multiexp) := by
  refine ⟨_, _, profile_multiexp_eq env group_elements scalars use_multiexp w (by omega), ?_, ?_⟩
  · simp [hlen]
  · intro k hk
    exact zipWith_get?_of_lt _ group_elements scalars (by omega) k hk

/-- Instance of C4: a batch of two instances, run in optimized mode; the second answer
is the engine's result on the second instance. -/
theorem profile_multiexp_preserves_order_witness :
    [[(2 : Int), 3], [4]].length = [[(1 : Int), 1], [5]].length ∧
    1 < [[(2 : Int), 3], [4]].length ∧
    ∃ result w1, profile_multiexp int_env [[2, 3], [4]] [[1, 1], [5]] true initial_world
        = some (result, w1) ∧
      result.2.length = 2 ∧ result.2.get? 1 = some (int_env.multi_exp [4] [5] 1 true) := by
  obtain ⟨result, w1, h1, h2, h3⟩ :=
    profile_multiexp_preserves_order int_env [[2, 3], [4]] [[1, 1], [5]] true initial_world rfl
  obtain ⟨g, s, hg, hs, hr⟩ := h3 1 (by decide)
  simp only [List.get?_cons_succ, List.get?_cons_zero, Option.some.injEq] at hg hs
  subst hg; subst hs
  exact ⟨rfl, by decide, result, w1, h1, h2, hr⟩

/-- The sweep of the example scenario over the integers: the rows for 2 and 3 carry
two timings, the row for 4 carries one. -/
theorem print_performance_csv_ragged_example :
    (print_performance_csv int_env 4 2 4 3 true initial_world).table
      = Outcome.returned "2\t100\t100\n3\t100\t100\n4\t100\n".toList := by
  decide

/-- The sweep of the example scenario with an optimized mode that is off by one: the
diagnostic is written for the exponents 2 and 3, where both modes ran, and the table is
complete. -/
theorem print_performance_csv_mismatch_example :
    (print_performance_csv faulty_env 4 2 4 3 true initial_world).diagnostics
      = Outcome.returned (NOT_MATCHING ++ NOT_MATCHING) ∧
    (print_performance_csv faulty_env 4 2 4 3 true initial_world).table
      = Outcome.returned "2\t100\t100\n3\t100\t100\n4\t100\n".toList ∧
    (print_performance_csv faulty_env 4 2 4 3 false initial_world).diagnostics
      = Outcome.returned [] ∧
    (print_performance_csv int_env 4 2 4 3 true initial_world).diagnostics
      = Outcome.returned [] := by
  decide

end MultiexpProfile
